import Mathlib

/-!
Verification of the document indexing, caching and query-routing core of the
legal chatbot (src/week8/legal_chatbot_main.py, src/week8/document_processor.py).
The Python code is shallowly embedded: filesystem state is passed explicitly,
fallible collaborators (retriever, web search, completion) are functions into
`Except`, and exceptions become `Except.error` values.
-/

namespace LegalChatbot

/-- A directory entry as seen by os.listdir / os.path: a name, whether it is a
regular file (os.path.isfile), and its modification time (os.path.getmtime). -/
structure FileEntry where
  name : String
  isFile : Bool
  mtime : Nat
deriving Repr, DecidableEq

/-- The filesystem state consulted by LegalChatbot._documents_changed:
whether the cache marker `index_cache.pkl` exists and its mtime, whether the
`documents` directory exists, and the entries it currently contains. -/
structure FsState where
  cacheExists : Bool
  cacheMtime : Nat
  dirExists : Bool
  files : List FileEntry
deriving Repr, DecidableEq

/-- Embedding of LegalChatbot._documents_changed: true if the cache marker is
missing, or the documents directory is missing, or some regular file in the
directory has a modification time strictly greater than the cache marker. -/
def documents_changed (s : FsState) : Bool :=
  if !s.cacheExists then true
  else if !s.dirExists then true
  else s.files.any (fun f => f.isFile && decide (f.mtime > s.cacheMtime))

/-- Removing a named entry from the documents directory. -/
def removeFile (s : FsState) (n : String) : FsState :=
  { s with files := s.files.filter (fun f => f.name ≠ n) }

/-- Adding an entry to the documents directory. -/
def addFile (s : FsState) (f : FileEntry) : FsState :=
  { s with files := f :: s.files }

/-- Python str.lower(), modelled per character (the keywords are ASCII). -/
def pyLower (s : String) : String :=
  ⟨s.data.map Char.toLower⟩

/-- Python str.strip(): drop leading and trailing whitespace. -/
def pyStrip (s : String) : String :=
  ⟨((s.data.dropWhile Char.isWhitespace).reverse.dropWhile
      Char.isWhitespace).reverse⟩

/-- Python str.replace on character lists: replace every non-overlapping
occurrence of `old` left to right (for nonempty `old`). -/
def replaceChars (old new : List Char) : List Char → List Char
  | [] => []
  | c :: rest =>
    if old.isPrefixOf (c :: rest) then
      new ++ replaceChars old new (rest.drop (old.length - 1))
    else
      c :: replaceChars old new rest
termination_by l => l.length
decreasing_by
  · simp only [List.length_drop, List.length_cons]
    omega
  · simp only [List.length_cons]
    omega

/-- Python str.replace lifted to strings. -/
def pyReplace (s old new : String) : String :=
  ⟨replaceChars old.data new.data s.data⟩

/-- A source file as the DocumentProcessor sees it: its basename, its
lowercased extension, the text its extractor produces, and whether it is a
regular file. -/
structure SrcFile where
  name : String
  ext : String
  text : String
  isFile : Bool
deriving Repr, DecidableEq

/-- A llama_index Document as built by DocumentProcessor.process_document:
text plus the metadata fields the code sets. -/
structure Document where
  text : String
  filename : String
  file_path : String
  document_type : String
deriving Repr, DecidableEq

/-- Embedding of DocumentProcessor.process_document: dispatch on the
lowercased extension; unsupported extensions give None; a file whose extracted
text is empty after strip gives None; otherwise a Document tagged
"legal_document". -/
def process_document (folder : String) (f : SrcFile) : Option Document :=
  if f.ext = ".pdf" ∨ f.ext = ".docx" ∨ f.ext = ".txt" then
    if pyStrip f.text ≠ "" then
      some { text := f.text, filename := f.name,
             file_path := folder ++ "/" ++ f.name,
             document_type := "legal_document" }
    else none
  else none

/-- Embedding of DocumentProcessor.process_all_documents: if the documents
folder does not exist, return the empty list (no error); otherwise process
every regular file and keep the successful ones. -/
def process_all_documents (folder : String) (dirExists : Bool)
    (files : List SrcFile) : List Document :=
  if !dirExists then []
  else (files.filter (·.isFile)).filterMap (process_document folder)

/-- Embedding of DocumentProcessor.__init__: if the documents folder does not
exist it is created with os.makedirs, so after construction it exists. -/
def documentProcessor_init (dirExists : Bool) : Bool :=
  if !dirExists then true else dirExists

/-- Outcome of LegalChatbot.build_index. -/
inductive BuildOutcome where
  | loadedCache
  | rebuilt
  | errorNoDocs
deriving Repr, DecidableEq

/-- Embedding of LegalChatbot.build_index: when not forcing a rebuild and the
documents are unchanged, try to load the cached index and return it on
success; otherwise (including when loading the cache failed) fall through to
processing all documents, raising the no-documents ValueError when the corpus
is empty, and building a fresh index otherwise. `loadOk` is the boolean result
of load_cached_index; `dirAtProcess` is whether the documents folder exists
when process_all_documents runs. -/
def build_index (force_rebuild : Bool) (fs : FsState) (loadOk : Bool)
    (dirAtProcess : Bool) (files : List SrcFile) : BuildOutcome :=
  if !force_rebuild && !documents_changed fs && loadOk then
    BuildOutcome.loadedCache
  else
    let documents := process_all_documents "documents" dirAtProcess files
    if documents.isEmpty then BuildOutcome.errorNoDocs
    else BuildOutcome.rebuilt

/-- Python substring containment (`sub in s`), modelled as infix of the
character lists. -/
def strContains (s sub : String) : Bool :=
  decide (sub.data <:+: s.data)

/-- Python slicing s[:n] on code points. -/
def strTake (n : Nat) (s : String) : String :=
  ⟨s.data.take n⟩

/-- The fixed keyword list of LegalChatbot.should_search_web. -/
def web_search_keywords : List String :=
  ["recent", "latest", "new", "2024", "2023", "current", "today",
   "recent case", "recent judgment", "latest ruling", "new law",
   "current status", "updated", "now", "present"]

/-- Embedding of LegalChatbot.should_search_web: true iff some keyword is a
substring of the lowercased question. -/
def should_search_web (question : String) : Bool :=
  let question_lower := pyLower question
  web_search_keywords.any (fun keyword => strContains question_lower keyword)

/-- A web search result as assembled by the scraper: title, content, source. -/
structure SearchSnippet where
  title : String
  content : String
  source : String
deriving Repr, DecidableEq

/-- One numbered entry of the web-context block, as formatted inside the loop
of LegalChatbot.get_web_context: the enumeration index and title line, then
the content sliced to 400 characters with a truncation marker appended exactly
when the content is longer than 400 characters. -/
def format_entry (i : Nat) (r : SearchSnippet) : String :=
  toString i ++ ". " ++ r.title ++ " (Source: " ++ r.source ++ ")\n" ++
  "   " ++ strTake 400 r.content ++
  (if r.content.length > 400 then "..." else "") ++ "\n\n"

/-- The web-context block assembled from a successful search result list by
LegalChatbot.get_web_context: the no-results message when the list is empty,
otherwise a header followed by the first two results formatted and numbered
from 1. -/
def assemble_web_context (results : List SearchSnippet) : String :=
  if results.isEmpty then
    "No recent web information found for this query."
  else
    "Recent Legal Information from Web Sources:\n\n" ++
    String.join (((results.take 2).enumFrom 1).map
      (fun p => format_entry p.1 p.2))

/-- Embedding of LegalChatbot.get_web_context: the web search collaborator may
fail; a failure is caught inside and turned into an explanatory string, a
success is assembled into the web-context block. -/
def get_web_context (webSearch : String → Except String (List SearchSnippet))
    (question : String) : String :=
  match webSearch question with
  | Except.ok results => assemble_web_context results
  | Except.error e => "Error retrieving web information: " ++ e

/-- Embedding of LegalChatbot.legal_prompt_template filled by .format: the
fixed template with the three slots spliced in. -/
def legal_prompt_template (context_str web_context query_str : String) :
    String :=
  "You are an expert Indian legal assistant. Use both the provided context from Indian legal documents and recent web information to answer questions accurately and comprehensively.\n\n" ++
  "Context from Legal Documents:\n" ++
  "---------------------\n" ++
  context_str ++ "\n" ++
  "---------------------\n\n" ++
  "Recent Web Information:\n" ++
  "---------------------\n" ++
  web_context ++ "\n" ++
  "---------------------\n\n" ++
  "Instructions:\n" ++
  "1. Provide accurate legal information based on Indian law and recent developments\n" ++
  "2. Cite specific sections, articles, or acts when possible\n" ++
  "3. Include recent case law and judgments when relevant\n" ++
  "4. If information conflicts, prioritize statutory law but mention recent judicial interpretations\n" ++
  "5. Always remind users to consult with a qualified lawyer for legal advice\n" ++
  "6. Be precise and professional in your responses\n" ++
  "7. Clearly distinguish between established law and recent developments\n" ++
  "8. Format your response in plain text without markdown formatting\n\n" ++
  "Query: " ++ query_str ++ "\n" ++
  "Answer: "

/-- The markdown clean-up at the end of LegalChatbot.query: sequential
replacements of the fixed markup tokens by the empty string. -/
def sanitize (s : String) : String :=
  pyReplace (pyReplace (pyReplace (pyReplace (pyReplace
    s "**" "") "*" "") "###" "") "##" "") "#" ""

/-- The body of the try-block of LegalChatbot.query: retrieve document nodes,
join their texts, gather web context when routing says so (web failures are
already caught inside get_web_context), fill the prompt template, call the
completion provider, and sanitize its output. Collaborator failures surface
as Except.error, the embedding of a raised exception. -/
def query_try (retrieve : String → Except String (List String))
    (webSearch : String → Except String (List SearchSnippet))
    (complete : String → Except String String)
    (question : String) : Except String String := do
  let nodes ← retrieve question
  let doc_context := String.intercalate "\n" nodes
  let web_context :=
    if should_search_web question then get_web_context webSearch question
    else "No web search performed - using statutory documents only."
  let enhanced_prompt := legal_prompt_template doc_context web_context question
  let response ← complete enhanced_prompt
  pure (sanitize response)

/-- Embedding of LegalChatbot.query: without a query engine it raises the
setup ValueError (an Except.error propagated to the caller); with one, any
exception from the try-block is caught and converted into an error string
returned as the answer. -/
def query (engineReady : Bool)
    (retrieve : String → Except String (List String))
    (webSearch : String → Except String (List SearchSnippet))
    (complete : String → Except String String)
    (question : String) : Except String String :=
  if !engineReady then
    Except.error "Query engine not setup. Call setup_query_engine() first."
  else
    match query_try retrieve webSearch complete question with
    | Except.ok response_text => Except.ok response_text
    | Except.error e => Except.ok ("Error processing query: " ++ e)

/-- One record of get_document_info in the initialized case. -/
structure DocInfo where
  filename : String
  document_type : String
  text_length : Nat
deriving Repr, DecidableEq

/-- The two possible shapes of the value returned by
LegalChatbot.get_document_info: a bare string, or a list of records. -/
inductive DocInfoResult where
  | message (s : String)
  | infos (l : List DocInfo)
deriving Repr, DecidableEq

/-- Embedding of LegalChatbot.get_document_info: with no index the plain
string is returned; with an index, one record per stored document with the
metadata fields (defaulting to "Unknown") and the text length. -/
def get_document_info (index : Option (List Document)) : DocInfoResult :=
  match index with
  | none => DocInfoResult.message "Index not built yet."
  | some docs =>
      DocInfoResult.infos (docs.map (fun d =>
        { filename := d.filename, document_type := d.document_type,
          text_length := d.text.length }))

/-- The length of a string is the length of its character list. -/
theorem strLength_data (s : String) : s.length = s.data.length := rfl

/-- C4: given that the cache marker with timestamp T exists and the documents
directory exists, if some regular file has modification time strictly greater
than T then _documents_changed returns true, and if every regular file has
modification time at most T then it returns false. -/
theorem documents_changed_monotone (s : FsState)
    (hc : s.cacheExists = true) (hd : s.dirExists = true) :
    ((∃ f ∈ s.files, f.isFile = true ∧ s.cacheMtime < f.mtime) →
      documents_changed s = true) ∧
    ((∀ f ∈ s.files, f.isFile = true → f.mtime ≤ s.cacheMtime) →
      documents_changed s = false) := by
  constructor
  · rintro ⟨f, hf, hfile, hlt⟩
    simp only [documents_changed, hc, hd, Bool.not_true, Bool.false_eq_true,
      if_false, List.any_eq_true]
    exact ⟨f, hf, by simp [hfile, hlt]⟩
  · intro h
    simp only [documents_changed, hc, hd, Bool.not_true, Bool.false_eq_true,
      if_false, List.any_eq_false]
    intro f hf
    simp only [Bool.and_eq_true, decide_eq_true_eq, not_and, gt_iff_lt,
      not_lt]
    intro hfile
    exact h f hf hfile

/-- C4 witness: a file at mtime 11 against a cache marker at mtime 10 makes
the check true; a file at mtime 9 keeps it false. -/
theorem documents_changed_monotone_witness :
    documents_changed ⟨true, 10, true, [⟨"a.txt", true, 11⟩]⟩ = true ∧
    documents_changed ⟨true, 10, true, [⟨"b.txt", true, 9⟩]⟩ = false :=
  ⟨(documents_changed_monotone _ rfl rfl).1
      ⟨⟨"a.txt", true, 11⟩, by decide, rfl, by decide⟩,
   (documents_changed_monotone _ rfl rfl).2 (by decide)⟩

/-- C2 counterexample: removing a file does not invalidate. Starting from a
directory with files a.txt and b.txt, both at mtime 5, and a cache marker at
mtime 10, removing b.txt leaves _documents_changed returning false, although
the corpus differs from the one the index was built from. -/
theorem documents_changed_remove_counterexample :
    documents_changed (removeFile
      ⟨true, 10, true, [⟨"a.txt", true, 5⟩, ⟨"b.txt", true, 5⟩]⟩
      "b.txt") = false := by decide

/-- C2 amended: a changed or added file whose modification time exceeds the
cache timestamp invalidates the index, but a removed file does not: after
removing any entry, if every remaining regular file has modification time at
most the cache timestamp, _documents_changed returns false. -/
theorem documents_changed_add_not_remove (s : FsState) (n : String)
    (f : FileEntry) (hc : s.cacheExists = true) (hd : s.dirExists = true) :
    (f.isFile = true → s.cacheMtime < f.mtime →
      documents_changed (addFile s f) = true) ∧
    ((∀ g ∈ s.files, g.isFile = true → g.mtime ≤ s.cacheMtime) →
      documents_changed (removeFile s n) = false) := by
  constructor
  · intro hfile hlt
    simp only [documents_changed, addFile, hc, hd, Bool.not_true,
      Bool.false_eq_true, if_false, List.any_cons]
    simp [hfile, hlt]
  · intro h
    simp only [documents_changed, removeFile, hc, hd, Bool.not_true,
      Bool.false_eq_true, if_false, List.any_eq_false]
    intro g hg
    simp only [List.mem_filter] at hg
    simp only [Bool.and_eq_true, decide_eq_true_eq, not_and, gt_iff_lt,
      not_lt]
    intro hfile
    exact h g hg.1 hfile

/-- C2 amended witness: adding c.txt at mtime 12 over a cache marker at mtime
10 invalidates; removing b.txt with the remaining file at mtime 5 does not. -/
theorem documents_changed_add_not_remove_witness :
    documents_changed (addFile
      ⟨true, 10, true, [⟨"a.txt", true, 5⟩, ⟨"b.txt", true, 5⟩]⟩
      ⟨"c.txt", true, 12⟩) = true ∧
    documents_changed (removeFile
      ⟨true, 10, true, [⟨"a.txt", true, 5⟩, ⟨"b.txt", true, 5⟩]⟩
      "b.txt") = false :=
  ⟨(documents_changed_add_not_remove _ "b.txt" ⟨"c.txt", true, 12⟩
      rfl rfl).1 rfl (by decide),
   (documents_changed_add_not_remove _ "b.txt" ⟨"c.txt", true, 12⟩
      rfl rfl).2 (by decide)⟩

/-- C1 counterexample: the fallback to a full rebuild on a cache-load failure
is automatic. With the cache marker present, the documents unchanged
(documents_changed is false) and load_cached_index failing (loadOk false),
build_index falls through to a full rebuild in the same call instead of
stopping and leaving recovery to the caller. -/
theorem build_index_fallback_counterexample :
    build_index false ⟨true, 10, true, [⟨"a.txt", true, 5⟩]⟩ false true
      [⟨"a.txt", ".txt", "hello", true⟩] = BuildOutcome.rebuilt := by decide

/-- C1 amended: rebuild on a cache-load failure is automatic, not an explicit
caller-invoked recovery: whenever load_cached_index returns false and the
corpus processes to a nonempty document list, build_index performs a full
rebuild within the same call, for every filesystem state. -/
theorem build_index_rebuilds_on_load_failure (fs : FsState)
    (files : List SrcFile)
    (h : process_all_documents "documents" true files ≠ []) :
    build_index false fs false true files = BuildOutcome.rebuilt := by
  simp only [build_index, Bool.and_false, Bool.false_eq_true, if_false]
  simp [List.isEmpty_iff, h]

/-- C1 amended witness: a two-file corpus rebuilds after a failed cache
load. -/
theorem build_index_rebuilds_on_load_failure_witness :
    build_index false ⟨true, 10, true, [⟨"a.txt", true, 5⟩, ⟨"b.txt", true, 7⟩]⟩
      false true [⟨"a.txt", ".txt", "hello", true⟩,
        ⟨"b.txt", ".txt", "world", true⟩] = BuildOutcome.rebuilt :=
  build_index_rebuilds_on_load_failure _ _ (by decide)

/-- C3 counterexample: loading documents over a non-existent directory does
not signal a distinct CorpusDirectoryMissing error. Instead the
DocumentProcessor constructor creates the directory, process_all_documents
over a missing directory returns the empty list, and build_index then fails
with the CorpusEmpty-style no-documents ValueError. -/
theorem missing_dir_counterexample :
    documentProcessor_init false = true ∧
    process_all_documents "documents" false
      [⟨"a.txt", ".txt", "hello", true⟩] = [] ∧
    build_index false ⟨false, 0, false, []⟩ true false
      [⟨"a.txt", ".txt", "hello", true⟩] = BuildOutcome.errorNoDocs := by
  decide

/-- C3 amended: there is no CorpusDirectoryMissing error. When the documents
directory does not exist, the constructor creates it, process_all_documents
returns an empty list rather than raising, and build_index (for any force
flag and cache-load outcome, since a missing directory makes
documents_changed true) raises the no-documents ValueError, the same error as
for an empty corpus. -/
theorem missing_dir_behavior (files : List SrcFile) (fs : FsState)
    (hd : fs.dirExists = false) :
    documentProcessor_init false = true ∧
    process_all_documents "documents" false files = [] ∧
    ∀ force loadOk,
      build_index force fs loadOk false files = BuildOutcome.errorNoDocs := by
  refine ⟨rfl, rfl, ?_⟩
  intro force loadOk
  have hchanged : documents_changed fs = true := by
    simp only [documents_changed, hd, Bool.not_false, if_true]
    cases hcache : fs.cacheExists <;> simp
  simp [build_index, hchanged, process_all_documents]

/-- C3 amended witness at a missing directory with a one-file listing. -/
theorem missing_dir_behavior_witness :
    documentProcessor_init false = true ∧
    process_all_documents "documents" false
      [⟨"a.txt", ".txt", "hello", true⟩] = [] ∧
    ∀ force loadOk,
      build_index force ⟨true, 10, false, []⟩ loadOk false
        [⟨"a.txt", ".txt", "hello", true⟩] = BuildOutcome.errorNoDocs :=
  missing_dir_behavior _ _ rfl

/-- C5: the assembled web context depends only on the first two search
results, and each formatted entry carries the content sliced to 400
characters: when the content is longer than 400 characters the entry holds
exactly the 400-character prefix followed by the "..." marker, and when the
content is at most 400 characters the entry holds the content unmodified with
no marker. -/
theorem web_context_truncation (results : List SearchSnippet) :
    assemble_web_context results = assemble_web_context (results.take 2) ∧
    (∀ i r, 400 < r.content.length →
      format_entry i r =
        toString i ++ ". " ++ r.title ++ " (Source: " ++ r.source ++ ")\n" ++
        "   " ++ strTake 400 r.content ++ "..." ++ "\n\n" ∧
      (strTake 400 r.content).length = 400 ∧
      (strTake 400 r.content).data <+: r.content.data) ∧
    (∀ i r, r.content.length ≤ 400 →
      format_entry i r =
        toString i ++ ". " ++ r.title ++ " (Source: " ++ r.source ++ ")\n" ++
        "   " ++ r.content ++ "\n\n") := by
  refine ⟨?_, ?_, ?_⟩
  · cases results with
    | nil => rfl
    | cons a t => simp [assemble_web_context, List.take_take]
  · intro i r h
    refine ⟨?_, ?_, ?_⟩
    · simp only [format_entry, if_pos h]
    · have hlen : (strTake 400 r.content).length =
          (r.content.data.take 400).length := rfl
      rw [hlen, List.length_take]
      rw [strLength_data] at h
      omega
    · exact List.take_prefix _ _
  · intro i r h
    have htake : strTake 400 r.content = r.content := by
      simp only [strTake]
      congr 1
      rw [List.take_of_length_le]
      rw [strLength_data] at h
      exact h
    simp only [format_entry, htake, if_neg (by omega : ¬ 400 < r.content.length)]
    simp [String.append_empty]

/-- C5 witness: a snippet with 500-character content yields the 400-character
prefix plus the marker; a snippet with 300-character content is included
unmodified. -/
theorem web_context_truncation_witness :
    (400 < (⟨List.replicate 500 'a'⟩ : String).length ∧
      (strTake 400 ⟨List.replicate 500 'a'⟩).length = 400) ∧
    ((⟨List.replicate 300 'b'⟩ : String).length ≤ 400 ∧
      format_entry 2 ⟨"T", ⟨List.replicate 300 'b'⟩, "S"⟩ =
        toString 2 ++ ". " ++ "T" ++ " (Source: " ++ "S" ++ ")\n" ++
        "   " ++ (⟨List.replicate 300 'b'⟩ : String) ++ "\n\n") :=
  ⟨⟨by norm_num [strLength_data],
    ((web_context_truncation [⟨"T", ⟨List.replicate 500 'a'⟩, "S"⟩]).2.1 1
      ⟨"T", ⟨List.replicate 500 'a'⟩, "S"⟩ (by norm_num [strLength_data])).2.1⟩,
   ⟨by norm_num [strLength_data],
    (web_context_truncation [⟨"T", ⟨List.replicate 300 'b'⟩, "S"⟩]).2.2 2
      ⟨"T", ⟨List.replicate 300 'b'⟩, "S"⟩ (by norm_num [strLength_data])⟩⟩

/-- C6: should_search_web is a pure function of the query text alone; a query
whose lowercased text contains "latest" yields true, and a query whose
lowercased text contains no keyword of the fixed set yields false. -/
theorem routing_classification (q : String) :
    (strContains (pyLower q) "latest" = true → should_search_web q = true) ∧
    ((∀ k ∈ web_search_keywords, strContains (pyLower q) k = false) →
      should_search_web q = false) := by
  constructor
  · intro h
    simp only [should_search_web, List.any_eq_true]
    exact ⟨"latest", by simp [web_search_keywords], h⟩
  · intro h
    simp only [should_search_web, List.any_eq_false]
    intro k hk
    simp [h k hk]

/-- C6 witness: a query containing "latest" routes to the web; a query
containing no keyword does not. -/
theorem routing_classification_witness :
    should_search_web "tell me the latest ruling" = true ∧
    should_search_web "what is article 21" = false :=
  ⟨(routing_classification "tell me the latest ruling").1 (by decide),
   (routing_classification "what is article 21").2 (by decide)⟩

/-- C9: keyword matching is raw substring matching without word boundaries:
whenever any keyword of the fixed set occurs as a substring of the lowercased
query, even embedded inside another word, should_search_web returns true. -/
theorem embedded_keyword_triggers_web (q k : String)
    (hk : k ∈ web_search_keywords)
    (hc : strContains (pyLower q) k = true) :
    should_search_web q = true := by
  simp only [should_search_web, List.any_eq_true]
  exact ⟨k, hk, hc⟩

/-- C9 witness: "know" contains "now", "newspaper" contains "new", and
"renewal" contains "new", so each of these keyword-free queries is routed to
the web. -/
theorem embedded_keyword_triggers_web_witness :
    should_search_web "do you know the law" = true ∧
    should_search_web "the newspaper reported it" = true ∧
    should_search_web "renewal of a contract" = true :=
  ⟨embedded_keyword_triggers_web "do you know the law" "now"
      (by decide) (by decide),
   embedded_keyword_triggers_web "the newspaper reported it" "new"
      (by decide) (by decide),
   embedded_keyword_triggers_web "renewal of a contract" "new"
      (by decide) (by decide)⟩

/-- C7: once the query engine is set up, query never propagates an exception:
whatever the retrieval, web-search and completion collaborators do, the
result is an Except.ok answer, and when the try-block raises, the answer is
the error converted to the "Error processing query: " string. -/
theorem query_swallows_errors
    (retrieve : String → Except String (List String))
    (webSearch : String → Except String (List SearchSnippet))
    (complete : String → Except String String) (question : String) :
    (∀ e, query_try retrieve webSearch complete question = Except.error e →
      query true retrieve webSearch complete question =
        Except.ok ("Error processing query: " ++ e)) ∧
    (∃ answer, query true retrieve webSearch complete question =
      Except.ok answer) := by
  constructor
  · intro e he
    simp [query, he]
  · cases h : query_try retrieve webSearch complete question with
    | ok t => exact ⟨t, by simp [query, h]⟩
    | error e => exact ⟨"Error processing query: " ++ e, by simp [query, h]⟩

/-- C7 witness: with a retriever that raises, query returns the converted
error string as the answer instead of propagating the exception. -/
theorem query_swallows_errors_witness :
    query true (fun _ => Except.error "retrieval failed")
      (fun _ => Except.ok []) (fun _ => Except.ok "an answer") "a question" =
      Except.ok ("Error processing query: " ++ "retrieval failed") :=
  (query_swallows_errors (fun _ => Except.error "retrieval failed")
    (fun _ => Except.ok []) (fun _ => Except.ok "an answer") "a question").1
    "retrieval failed" rfl

/-- C8: calling query while the query engine is not set up raises the setup
ValueError to the caller for every question and collaborators, rather than
returning an answer: the one query-path failure that is propagated instead of
being converted into a textual answer. -/
theorem query_uninitialized_raises
    (retrieve : String → Except String (List String))
    (webSearch : String → Except String (List SearchSnippet))
    (complete : String → Except String String) (question : String) :
    query false retrieve webSearch complete question =
      Except.error "Query engine not setup. Call setup_query_engine() first." :=
  rfl

/-- C10: get_document_info returns a bare message string when no index has
been built or loaded, and a list of one record per stored document (with the
metadata fields and the text length) when an index is present, so the return
shape depends on the initialization state. -/
theorem get_document_info_shape :
    get_document_info none = DocInfoResult.message "Index not built yet." ∧
    ∀ docs : List Document,
      get_document_info (some docs) = DocInfoResult.infos (docs.map (fun d =>
        { filename := d.filename, document_type := d.document_type,
          text_length := d.text.length })) ∧
      get_document_info (some docs) ≠
        DocInfoResult.message "Index not built yet." := by
  refine ⟨rfl, ?_⟩
  intro docs
  exact ⟨rfl, by simp [get_document_info]⟩

/-- C10 witness: with a one-document index the result is a record list, not
the not-built message. -/
theorem get_document_info_shape_witness :
    get_document_info (some [⟨"hello", "a.txt", "documents/a.txt",
      "legal_document"⟩]) ≠ DocInfoResult.message "Index not built yet." :=
  (get_document_info_shape.2 [⟨"hello", "a.txt", "documents/a.txt",
    "legal_document"⟩]).2

end LegalChatbot
